import Mathlib

/-!
digital-FTE: PM2 ecosystem configuration

Shallow embedding of `ecosystem.config.js`.  The module exports one object
literal whose only free variable is Node's `__dirname`; the embedding is a
function from that directory string to the exported record.

JavaScript number literals are embedded as `Int`, string literals as `String`,
booleans as `Bool`, the `env` object literal as an association list in source
order, and the `apps` array literal as a `List`.
-/

namespace Ecosystem

/-- One entry of the `apps` array: the fields of the object literal at
`ecosystem.config.js` lines 24-54, in source order. -/
structure AppConfig where
  name : String
  script : String
  interpreter : String
  cwd : String
  autorestart : Bool
  max_restarts : Int
  min_uptime : String
  restart_delay : Int
  log_file : String
  error_file : String
  out_file : String
  merge_logs : Bool
  log_date_format : String
  env : List (String × String)
  kill_timeout : Int
  shutdown_with_message : Bool
  watch : Bool
  deriving DecidableEq, Repr

/-- The value assigned to `module.exports`: an object with the single key `apps`. -/
structure Exports where
  apps : List AppConfig
  deriving DecidableEq, Repr

/-- The object literal assigned to `module.exports` (lines 22-56), as a function
of the module directory `__dirname`. -/
def module.exports (__dirname : String) : Exports :=
  { apps := [
      { name := "ai-employee",
        script := "main_watcher.py",
        interpreter := __dirname ++ "/venv/Scripts/python.exe",
        cwd := __dirname,
        -- Restart policy
        autorestart := true,
        max_restarts := 10,
        min_uptime := "10s",
        restart_delay := 5000,
        -- Logging
        log_file := "./logs/pm2_ai_employee.log",
        error_file := "./logs/pm2_ai_employee_error.log",
        out_file := "./logs/pm2_ai_employee_out.log",
        merge_logs := true,
        log_date_format := "YYYY-MM-DD HH:mm:ss Z",
        -- Environment
        env := [("PYTHONUNBUFFERED", "1")],
        -- Graceful shutdown
        kill_timeout := 15000,
        shutdown_with_message := true,
        -- Watch is OFF
        watch := false } ] }

end Ecosystem

namespace Ecosystem

/-- Erases the two fields of an app entry whose source expressions mention
`__dirname` (`interpreter`, line 27, and `cwd`, line 28), keeping every other
field.  Used to state which part of the configuration is directory-independent. -/
def eraseDirFields (app : AppConfig) : AppConfig :=
  { app with interpreter := "", cwd := "" }

/-- Path separators recognised by Node's `path` module: `/` (code 47) and the
backslash (code 92). -/
def isPathSeparator (c : Char) : Bool :=
  c = '/' || c = Char.ofNat 92

/-- Specification predicate "absolute path", following Node's `path.isAbsolute`:
the path starts with a separator (POSIX root, Windows root) or with a drive
letter, a colon and a separator. -/
def isAbsolute (p : String) : Bool :=
  match p.data with
  | [] => false
  | c :: rest =>
    isPathSeparator c ||
      (c.isAlpha && match rest with
        | ':' :: s :: _ => isPathSeparator s
        | _ => false)

end Ecosystem

/-!
Supervisor core described by the specification

`ecosystem.config.js` only parameterises a supervisor; the supervisor itself
(spawn, monitor, restart with a cap, stop) is not part of the source file.  The
definitions of this section follow sections 3 and 4.1 of the specification.
Durations are natural numbers in one fixed unit.
-/

namespace Supervisor

/-- Modelled from the spec: the numeric fields of `SupervisorConfig` (section 3)
that the monitor loop reads; the supervisor that consumes them is absent from
the source file, which holds only parameters for the external process manager. -/
structure SupervisorConfig where
  maxRestarts : Nat
  minUptime : Nat
  restartDelay : Nat
  killTimeout : Nat
  deriving DecidableEq, Repr

/-- Modelled from the spec: the lifecycle phases of section 3 together with the
terminal `Failed` phase; the supervisor's phase type is absent from the source. -/
inductive Phase where
  | Stopped
  | Starting
  | Running
  | Restarting
  | Stopping
  | Failed
  deriving DecidableEq, Repr

/-- Modelled from the spec: `ChildState` of section 3 (absent from the source):
lifecycle phase, restart count in the current window and whether a process
handle is held.  The last-start timestamp is represented by the elapsed time
carried by each exit event.  `spawnAttempts` counts every spawn issued and
`restartAttempts` those issued by the monitor loop after an exit; both are
observation counters that no transition reads. -/
structure ChildState where
  phase : Phase
  restartCount : Nat
  hasChild : Bool
  spawnAttempts : Nat
  restartAttempts : Nat
  deriving DecidableEq, Repr

/-- Modelled from the spec: what the supervisor (absent from the source) can
observe, after section 4.1: a `Start()` call, the outcome of a spawn, a child
exit with the elapsed time since the last start, the end of the `restartDelay`
wait, and a `Stop(signal)` call. -/
inductive Event where
  | start
  | spawnOk
  | spawnError
  | childExit (elapsed : Nat)
  | delayElapsed
  | stop
  deriving DecidableEq, Repr

/-- Modelled from the spec: `Start()` of section 4.1 (absent from the source):
`Stopped → Starting`, issuing one spawn; in any other phase nothing happens. -/
def Start (st : ChildState) : ChildState :=
  if st.phase = Phase.Stopped then
    { st with phase := Phase.Starting, spawnAttempts := st.spawnAttempts + 1 }
  else st

/-- Modelled from the spec: the outcome of the spawn issued by `Start()`
(section 4.1, absent from the source): success gives `Running`; a `SpawnError`
leaves the supervisor `Stopped` with no implicit retry. -/
def spawnResult (st : ChildState) (ok : Bool) : ChildState :=
  if st.phase = Phase.Starting then
    if ok then { st with phase := Phase.Running, hasChild := true }
    else { st with phase := Phase.Stopped, hasChild := false }
  else st

/-- Modelled from the spec: the "on child exit" body of `MonitorLoop()`
(section 4.1, absent from the source).  An exit before `minUptime` increments
the restart count, an exit at or after `minUptime` resets it to zero; a count
above `maxRestarts` gives the terminal `Failed`, anything else `Restarting`. -/
def onChildExit (cfg : SupervisorConfig) (st : ChildState) (elapsed : Nat) : ChildState :=
  let count := if elapsed < cfg.minUptime then st.restartCount + 1 else 0
  if count > cfg.maxRestarts then
    { st with phase := Phase.Failed, restartCount := count, hasChild := false }
  else
    { st with phase := Phase.Restarting, restartCount := count, hasChild := false }

/-- Modelled from the spec: the end of the `restartDelay` wait in `MonitorLoop()`
(section 4.1, absent from the source): `Restarting → Starting`, re-invoking the
spawn, which is counted as a restart attempt. -/
def onDelayElapsed (st : ChildState) : ChildState :=
  if st.phase = Phase.Restarting then
    { st with phase := Phase.Starting,
              spawnAttempts := st.spawnAttempts + 1,
              restartAttempts := st.restartAttempts + 1 }
  else st

/-- Modelled from the spec: `Stop(signal)` of section 4.1 (absent from the
source): `Running/Starting → Stopping`; a no-op in every other phase. -/
def Stop (st : ChildState) : ChildState :=
  if st.phase = Phase.Running ∨ st.phase = Phase.Starting then
    { st with phase := Phase.Stopping }
  else st

/-- Modelled from the spec: one transition of the state machine of section 4.1
(absent from the source).  A child exit is handled by the monitor loop while
`Running`, completes a shutdown while `Stopping`, and is not observed in any
other phase (in `Failed` monitoring has stopped). -/
def step (cfg : SupervisorConfig) (st : ChildState) : Event → ChildState
  | Event.start => Start st
  | Event.spawnOk => spawnResult st true
  | Event.spawnError => spawnResult st false
  | Event.childExit elapsed =>
    match st.phase with
    | Phase.Running => onChildExit cfg st elapsed
    | Phase.Stopping => { st with phase := Phase.Stopped, hasChild := false }
    | _ => st
  | Event.delayElapsed => onDelayElapsed st
  | Event.stop => Stop st

/-- Modelled from the spec: the supervisor (absent from the source) processing a
sequence of events from left to right. -/
def run (cfg : SupervisorConfig) (st : ChildState) (evs : List Event) : ChildState :=
  evs.foldl (step cfg) st

/-- Modelled from the spec: the events of one exit-and-respawn cycle (section
4.1 state machine, absent from the source): the child exits after `elapsed`,
the restart delay passes, the respawn succeeds. -/
def exitCycle (elapsed : Nat) : List Event :=
  [Event.childExit elapsed, Event.delayElapsed, Event.spawnOk]

/-- Modelled from the spec: consecutive exit cycles, one per uptime in the list
(section 8 scenarios; the supervisor is absent from the source). -/
def exitCycles : List Nat → List Event
  | [] => []
  | e :: es => exitCycle e ++ exitCycles es

/-- Modelled from the spec: a supervisor whose first spawn has just succeeded:
`Running`, restart count zero, one spawn issued, no restart yet. -/
def running0 : ChildState :=
  { phase := Phase.Running, restartCount := 0, hasChild := true,
    spawnAttempts := 1, restartAttempts := 0 }

end Supervisor

/-! The exported configuration -/

namespace Ecosystem

/-- C1: for every module directory the `apps` list has exactly one entry, whose
`name` is "ai-employee" and whose `script` is "main_watcher.py". -/
theorem apps_single_ai_employee (dir : String) :
    (module.exports dir).apps.length = 1 ∧
    ∃ app, (module.exports dir).apps = [app] ∧
      app.name = "ai-employee" ∧ app.script = "main_watcher.py" :=
  ⟨rfl, _, rfl, rfl, rfl⟩

/-- C2: for every module directory the single app's restart policy is
`autorestart = true`, `max_restarts = 10` (non-negative), `min_uptime = "10s"`
and `restart_delay = 5000` (non-negative). -/
theorem restart_policy_fields (dir : String) :
    ∃ app, (module.exports dir).apps = [app] ∧
      app.autorestart = true ∧
      app.max_restarts = 10 ∧ 0 ≤ app.max_restarts ∧
      app.min_uptime = "10s" ∧
      app.restart_delay = 5000 ∧ 0 ≤ app.restart_delay := by
  refine ⟨_, rfl, rfl, rfl, ?_, rfl, rfl, ?_⟩ <;> dsimp only <;> decide

/-- C3: for every module directory the single app names a combined log file, a
stdout log file and a stderr log file, and the three paths are pairwise
distinct. -/
theorem log_files_pairwise_distinct (dir : String) :
    ∃ app, (module.exports dir).apps = [app] ∧
      app.log_file = "./logs/pm2_ai_employee.log" ∧
      app.out_file = "./logs/pm2_ai_employee_out.log" ∧
      app.error_file = "./logs/pm2_ai_employee_error.log" ∧
      app.log_file ≠ app.out_file ∧
      app.log_file ≠ app.error_file ∧
      app.out_file ≠ app.error_file := by
  refine ⟨_, rfl, rfl, rfl, rfl, ?_, ?_, ?_⟩ <;> dsimp only <;> decide

/-- C4: for every module directory the single app's `cwd` is the module
directory and its `interpreter` is the module directory followed by
"/venv/Scripts/python.exe"; the working directory is a prefix of the
interpreter path, and it is absolute whenever the module directory is. -/
theorem cwd_and_interpreter (dir : String) :
    ∃ app, (module.exports dir).apps = [app] ∧
      app.cwd = dir ∧
      app.interpreter = dir ++ "/venv/Scripts/python.exe" ∧
      app.cwd.data <+: app.interpreter.data ∧
      (isAbsolute dir = true → isAbsolute app.cwd = true) := by
  refine ⟨_, rfl, rfl, rfl, ?_, fun h => h⟩
  exact ⟨"/venv/Scripts/python.exe".data, (String.data_append _ _).symm⟩

/-- Instance of C4 at the absolute directory "/srv/digital-FTE". -/
theorem cwd_and_interpreter_witness :
    isAbsolute "/srv/digital-FTE" = true ∧
    ∃ app, (module.exports "/srv/digital-FTE").apps = [app] ∧
      app.cwd = "/srv/digital-FTE" ∧
      app.interpreter = "/srv/digital-FTE" ++ "/venv/Scripts/python.exe" ∧
      app.cwd.data <+: app.interpreter.data ∧
      (isAbsolute "/srv/digital-FTE" = true → isAbsolute app.cwd = true) :=
  ⟨by decide, cwd_and_interpreter "/srv/digital-FTE"⟩

/-- C5: for every module directory the single app's `env` overlay has unique
keys and contains exactly one variable, PYTHONUNBUFFERED, mapped to "1". -/
theorem env_single_pythonunbuffered (dir : String) :
    ∃ app, (module.exports dir).apps = [app] ∧
      (app.env.map Prod.fst).Nodup ∧
      app.env.length = 1 ∧
      app.env.map Prod.fst = ["PYTHONUNBUFFERED"] ∧
      app.env.lookup "PYTHONUNBUFFERED" = some "1" ∧
      ∀ k v, (k, v) ∈ app.env ↔ k = "PYTHONUNBUFFERED" ∧ v = "1" := by
  refine ⟨_, rfl, ?_, rfl, rfl, ?_, ?_⟩
  · simp
  · dsimp only
    decide
  · intro k v
    simp

/-- C6: for every module directory the single app's `kill_timeout` is the
positive integer 15000 and `shutdown_with_message` is true. -/
theorem graceful_shutdown_fields (dir : String) :
    ∃ app, (module.exports dir).apps = [app] ∧
      app.kill_timeout = 15000 ∧ 0 < app.kill_timeout ∧
      app.shutdown_with_message = true := by
  refine ⟨_, rfl, rfl, ?_, rfl⟩
  dsimp only
  decide

/-- C7: for every module directory the single app's `watch` field is false. -/
theorem watch_is_off (dir : String) :
    ∃ app, (module.exports dir).apps = [app] ∧ app.watch = false :=
  ⟨_, rfl, rfl⟩

/-- C10: the exported configuration is a function of the module directory: equal
directories give equal configurations, and for any two directories the
configurations agree on every field other than `interpreter` and `cwd`. -/
theorem exports_depend_only_on_dir (dir₁ dir₂ : String) :
    (dir₁ = dir₂ → module.exports dir₁ = module.exports dir₂) ∧
    (module.exports dir₁).apps.map eraseDirFields =
      (module.exports dir₂).apps.map eraseDirFields :=
  ⟨fun h => congrArg module.exports h, rfl⟩

/-- Instance of C10 at two evaluations with the directory "/srv/digital-FTE". -/
theorem exports_depend_only_on_dir_witness :
    ("/srv/digital-FTE" = "/srv/digital-FTE" →
      module.exports "/srv/digital-FTE" = module.exports "/srv/digital-FTE") ∧
    (module.exports "/srv/digital-FTE").apps.map eraseDirFields =
      (module.exports "/srv/digital-FTE").apps.map eraseDirFields :=
  exports_depend_only_on_dir "/srv/digital-FTE" "/srv/digital-FTE"

end Ecosystem

/-! The restart budget of the supervisor -/

namespace Supervisor

theorem step_of_failed (cfg : SupervisorConfig) (st : ChildState) (ev : Event)
    (h : st.phase = Phase.Failed) : step cfg st ev = st := by
  cases ev <;> simp [step, Start, spawnResult, onDelayElapsed, Stop, h]

theorem run_of_failed (cfg : SupervisorConfig) (st : ChildState) (evs : List Event)
    (h : st.phase = Phase.Failed) : run cfg st evs = st := by
  induction evs with
  | nil => rfl
  | cons ev evs ih =>
    show run cfg (step cfg st ev) evs = st
    rw [step_of_failed cfg st ev h]
    exact ih

theorem run_append (cfg : SupervisorConfig) (st : ChildState) (xs ys : List Event) :
    run cfg st (xs ++ ys) = run cfg (run cfg st xs) ys := by
  simp [run, List.foldl_append]

/-- A crash within budget: the cycle ends `Running` with the count incremented
and one restart attempt made. -/
theorem run_exitCycle_crash (cfg : SupervisorConfig) (st : ChildState) (e : Nat)
    (hrun : st.phase = Phase.Running) (he : e < cfg.minUptime)
    (hc : st.restartCount + 1 ≤ cfg.maxRestarts) :
    run cfg st (exitCycle e) =
      { phase := Phase.Running, restartCount := st.restartCount + 1, hasChild := true,
        spawnAttempts := st.spawnAttempts + 1, restartAttempts := st.restartAttempts + 1 } := by
  have hc' : ¬ (st.restartCount + 1 > cfg.maxRestarts) := by omega
  simp [run, exitCycle, step, hrun, onChildExit, he, hc', onDelayElapsed, spawnResult]

/-- A crash that exceeds the budget: the cycle ends `Failed` and no spawn is
issued. -/
theorem run_exitCycle_crash_failed (cfg : SupervisorConfig) (st : ChildState) (e : Nat)
    (hrun : st.phase = Phase.Running) (he : e < cfg.minUptime)
    (hc : cfg.maxRestarts < st.restartCount + 1) :
    run cfg st (exitCycle e) =
      { st with phase := Phase.Failed, restartCount := st.restartCount + 1,
                hasChild := false } := by
  have hc' : st.restartCount + 1 > cfg.maxRestarts := hc
  simp [run, exitCycle, step, hrun, onChildExit, he, hc', onDelayElapsed, spawnResult]

/-- An exit after a stable run: the cycle ends `Running` with the count at zero. -/
theorem run_exitCycle_stable (cfg : SupervisorConfig) (st : ChildState) (e : Nat)
    (hrun : st.phase = Phase.Running) (he : cfg.minUptime ≤ e) :
    run cfg st (exitCycle e) =
      { phase := Phase.Running, restartCount := 0, hasChild := true,
        spawnAttempts := st.spawnAttempts + 1, restartAttempts := st.restartAttempts + 1 } := by
  have he' : ¬ (e < cfg.minUptime) := by omega
  simp [run, exitCycle, step, hrun, onChildExit, he', onDelayElapsed, spawnResult]

/-- Crashes that stay within the budget keep the supervisor `Running`; each one
is counted and answered by one restart. -/
theorem run_crashes_within_budget (cfg : SupervisorConfig) (es : List Nat) :
    ∀ st : ChildState, st.phase = Phase.Running →
      (∀ e ∈ es, e < cfg.minUptime) →
      st.restartCount + es.length ≤ cfg.maxRestarts →
      (run cfg st (exitCycles es)).phase = Phase.Running ∧
      (run cfg st (exitCycles es)).restartCount = st.restartCount + es.length ∧
      (run cfg st (exitCycles es)).restartAttempts = st.restartAttempts + es.length := by
  induction es with
  | nil => intro st hrun _ _; exact ⟨hrun, rfl, rfl⟩
  | cons e es ih =>
    intro st hrun hcrash hlen
    have he : e < cfg.minUptime := hcrash e (List.mem_cons_self _ _)
    have hes : ∀ x ∈ es, x < cfg.minUptime := fun x hx => hcrash x (List.mem_cons_of_mem _ hx)
    simp only [List.length_cons] at hlen
    have hcyc := run_exitCycle_crash cfg st e hrun he (by omega)
    have h := ih _ (show ChildState.phase
      { phase := Phase.Running, restartCount := st.restartCount + 1, hasChild := true,
        spawnAttempts := st.spawnAttempts + 1,
        restartAttempts := st.restartAttempts + 1 } = Phase.Running from rfl) hes
      (by dsimp only; omega)
    dsimp only at h
    simp only [exitCycles, run_append, hcyc, List.length_cons]
    refine ⟨h.1, ?_, ?_⟩
    · rw [h.2.1]; omega
    · rw [h.2.2]; omega

/-- Crashes that overrun the budget end in `Failed` after exactly
`maxRestarts - restartCount` restarts. -/
theorem run_crashes_over_budget (cfg : SupervisorConfig) (es : List Nat) :
    ∀ st : ChildState, st.phase = Phase.Running →
      (∀ e ∈ es, e < cfg.minUptime) →
      es ≠ [] →
      cfg.maxRestarts < st.restartCount + es.length →
      (run cfg st (exitCycles es)).phase = Phase.Failed ∧
      (run cfg st (exitCycles es)).restartAttempts =
        st.restartAttempts + (cfg.maxRestarts - st.restartCount) ∧
      (run cfg st (exitCycles es)).spawnAttempts =
        st.spawnAttempts + (cfg.maxRestarts - st.restartCount) := by
  induction es with
  | nil => intro st _ _ hne; exact absurd rfl hne
  | cons e es ih =>
    intro st hrun hcrash _ hlen
    have he : e < cfg.minUptime := hcrash e (List.mem_cons_self _ _)
    have hes : ∀ x ∈ es, x < cfg.minUptime := fun x hx => hcrash x (List.mem_cons_of_mem _ hx)
    simp only [List.length_cons] at hlen
    by_cases hc : cfg.maxRestarts < st.restartCount + 1
    · have hcyc := run_exitCycle_crash_failed cfg st e hrun he hc
      simp only [exitCycles, run_append, hcyc]
      rw [run_of_failed _ _ _ rfl]
      refine ⟨rfl, ?_, ?_⟩ <;> dsimp only <;> omega
    · have hcyc := run_exitCycle_crash cfg st e hrun he (by omega)
      have hne : es ≠ [] := by
        intro h0
        rw [h0] at hlen
        simp at hlen
        omega
      have h := ih _ (show ChildState.phase
        { phase := Phase.Running, restartCount := st.restartCount + 1, hasChild := true,
          spawnAttempts := st.spawnAttempts + 1,
          restartAttempts := st.restartAttempts + 1 } = Phase.Running from rfl) hes hne
        (by dsimp only; omega)
      dsimp only at h
      simp only [exitCycles, run_append, hcyc]
      refine ⟨h.1, ?_, ?_⟩
      · rw [h.2.1]; omega
      · rw [h.2.2]; omega

/-- C8: in the supervisor of specification section 4.1, any run of consecutive
crash-exits (each before `minUptime`) longer than `maxRestarts` ends in the
terminal `Failed` phase after exactly `maxRestarts - restartCount` restart
attempts, and from then on no event changes the phase or issues a spawn. -/
theorem crash_budget_exhausted (cfg : SupervisorConfig) (st : ChildState) (es : List Nat)
    (hrun : st.phase = Phase.Running)
    (hcrash : ∀ e ∈ es, e < cfg.minUptime)
    (hlen : cfg.maxRestarts < es.length) :
    (run cfg st (exitCycles es)).phase = Phase.Failed ∧
    (run cfg st (exitCycles es)).restartAttempts =
      st.restartAttempts + (cfg.maxRestarts - st.restartCount) ∧
    (run cfg st (exitCycles es)).spawnAttempts =
      st.spawnAttempts + (cfg.maxRestarts - st.restartCount) ∧
    ∀ evs : List Event,
      (run cfg st (exitCycles es ++ evs)).phase = Phase.Failed ∧
      (run cfg st (exitCycles es ++ evs)).spawnAttempts =
        (run cfg st (exitCycles es)).spawnAttempts := by
  have hne : es ≠ [] := by
    intro h0
    rw [h0] at hlen
    simp at hlen
  have h := run_crashes_over_budget cfg es st hrun hcrash hne (by omega)
  refine ⟨h.1, h.2.1, h.2.2, ?_⟩
  intro evs
  rw [run_append, run_of_failed cfg _ evs h.1]
  exact ⟨h.1, rfl⟩

/-- Scenario of C8: `maxRestarts = 4`, `minUptime = 10`, `restartDelay = 1`, five
exits after 3 in a row: four restart attempts, then `Failed`, then nothing. -/
theorem crash_budget_exhausted_witness :
    running0.phase = Phase.Running ∧
    (∀ e ∈ [3, 3, 3, 3, 3], e < (SupervisorConfig.mk 4 10 1 15).minUptime) ∧
    (SupervisorConfig.mk 4 10 1 15).maxRestarts < [3, 3, 3, 3, 3].length ∧
    (run (SupervisorConfig.mk 4 10 1 15) running0 (exitCycles [3, 3, 3, 3, 3])).phase
      = Phase.Failed ∧
    (run (SupervisorConfig.mk 4 10 1 15) running0
      (exitCycles [3, 3, 3, 3, 3])).restartAttempts = 4 ∧
    (run (SupervisorConfig.mk 4 10 1 15) running0
      (exitCycles [3, 3, 3, 3, 3])).spawnAttempts = 5 ∧
    ∀ evs : List Event,
      (run (SupervisorConfig.mk 4 10 1 15) running0
        (exitCycles [3, 3, 3, 3, 3] ++ evs)).phase = Phase.Failed ∧
      (run (SupervisorConfig.mk 4 10 1 15) running0
        (exitCycles [3, 3, 3, 3, 3] ++ evs)).spawnAttempts =
        (run (SupervisorConfig.mk 4 10 1 15) running0
          (exitCycles [3, 3, 3, 3, 3])).spawnAttempts :=
  ⟨rfl, by decide, by decide,
    crash_budget_exhausted (SupervisorConfig.mk 4 10 1 15) running0 [3, 3, 3, 3, 3]
      rfl (by decide) (by decide)⟩

/-- C9: in the supervisor of specification section 4.1, an exit after an uptime
of at least `minUptime` resets the restart count to zero and is restarted
normally (never `Failed`); the next crash is evaluated from zero, so the whole
budget of `maxRestarts` crashes is available again. -/
theorem stable_exit_resets_counter (cfg : SupervisorConfig) (st : ChildState) (elapsed : Nat)
    (hrun : st.phase = Phase.Running)
    (hup : cfg.minUptime ≤ elapsed) :
    (step cfg st (Event.childExit elapsed)).restartCount = 0 ∧
    (step cfg st (Event.childExit elapsed)).phase = Phase.Restarting ∧
    (run cfg st (exitCycle elapsed)).phase = Phase.Running ∧
    (run cfg st (exitCycle elapsed)).restartCount = 0 ∧
    (run cfg st (exitCycle elapsed)).restartAttempts = st.restartAttempts + 1 ∧
    (∀ e, e < cfg.minUptime →
      (onChildExit cfg (run cfg st (exitCycle elapsed)) e).restartCount = 1) ∧
    (∀ es : List Nat, (∀ e ∈ es, e < cfg.minUptime) → es.length ≤ cfg.maxRestarts →
      (run cfg (run cfg st (exitCycle elapsed)) (exitCycles es)).phase = Phase.Running) := by
  have hup' : ¬ (elapsed < cfg.minUptime) := by omega
  have hcyc := run_exitCycle_stable cfg st elapsed hrun hup
  refine ⟨?_, ?_, ?_, ?_, ?_, ?_, ?_⟩
  · simp [step, hrun, onChildExit, hup']
  · simp [step, hrun, onChildExit, hup']
  · rw [hcyc]
  · rw [hcyc]
  · rw [hcyc]
  · intro e he
    rw [hcyc]
    by_cases hm : 1 > cfg.maxRestarts <;> simp [onChildExit, he, hm]
  · intro es hes hlen
    rw [hcyc]
    exact (run_crashes_within_budget cfg es _ rfl hes (by dsimp only; omega)).1

/-- Scenario of C9: `minUptime = 10`, a child that ran 30 exits while the restart
count stands at the cap 4: the count is 0 before the respawn, the supervisor
restarts, and the next crash counts as the first. -/
theorem stable_exit_resets_counter_witness :
    (ChildState.mk Phase.Running 4 true 5 4).phase = Phase.Running ∧
    (SupervisorConfig.mk 4 10 1 15).minUptime ≤ 30 ∧
    (step (SupervisorConfig.mk 4 10 1 15) (ChildState.mk Phase.Running 4 true 5 4)
      (Event.childExit 30)).restartCount = 0 ∧
    (step (SupervisorConfig.mk 4 10 1 15) (ChildState.mk Phase.Running 4 true 5 4)
      (Event.childExit 30)).phase = Phase.Restarting ∧
    (run (SupervisorConfig.mk 4 10 1 15) (ChildState.mk Phase.Running 4 true 5 4)
      (exitCycle 30)).phase = Phase.Running ∧
    (run (SupervisorConfig.mk 4 10 1 15) (ChildState.mk Phase.Running 4 true 5 4)
      (exitCycle 30)).restartCount = 0 :=
  have h := stable_exit_resets_counter (SupervisorConfig.mk 4 10 1 15)
    (ChildState.mk Phase.Running 4 true 5 4) 30 rfl (by decide)
  ⟨rfl, by decide, h.1, h.2.1, h.2.2.1, h.2.2.2.1⟩

end Supervisor
